import Mathlib

/-!
Verification of the Connect-4 client-side session controller
(`src/App.tsx`, `src/components/GameBoard/GameBoard.tsx`,
`src/utils/localStorage.ts`).

The relevant program fragments are shallowly embedded as pure Lean
functions: React state updates become explicit state passing, the
WebSocket and `sessionStorage` become explicit records, timers become
recorded delays in the produced effect records.  Machine numbers are
modelled as `Nat` (all the quantities involved are small non-negative
integers; JavaScript numbers are exact on them).
-/

namespace Connect4

/-- A normalized player record (`{username, id, isBot}` after
`normalizePlayer` in `GameBoard.tsx`). -/
structure Player where
  username : String
  id : String
  isBot : Bool
deriving Repr, DecidableEq

/-- The client-side status union
`'waiting' | 'in_progress' | 'completed' | 'draw'` of `GameBoard.tsx`. -/
inductive Status where
  | waiting
  | in_progress
  | completed
  | draw
deriving Repr, DecidableEq

/-- `lastMove` record `{row, column, player}`. -/
structure LastMove where
  row : Nat
  column : Nat
  player : Nat
deriving Repr, DecidableEq

/-- The `GameState` React state of `GameBoard.tsx` (board is a list of
rows, each row a list of cell values in `{0,1,2}`). -/
structure GameState where
  board : List (List Nat)
  currentTurn : Nat
  status : Status
  winner : Option Player
  player1 : Option Player
  player2 : Option Player
  lastMove : Option LastMove
deriving Repr, DecidableEq

/-- The `pendingMove` React state `{row, col, player}`. -/
structure Pending where
  row : Nat
  col : Nat
  player : Nat
deriving Repr, DecidableEq

/-! ## SessionStore (`src/utils/localStorage.ts`)

`sessionStorage` is modelled as a record with one field per storage key
(`connect4_gameState`, `connect4_username`, `connect4_gameMode`,
`connect4_lastUpdated`); an absent key is `none`.  `Date.now()` is an
explicit `now : Nat` argument (milliseconds). -/

/-- The `StoredGameState` snapshot persisted under `connect4_gameState`. -/
structure StoredGameState where
  board : List (List Nat)
  currentTurn : Nat
  status : Status
  player1 : Option Player
  player2 : Option Player
  winner : Option Player
  lastMove : Option LastMove
deriving Repr, DecidableEq

/-- The four `sessionStorage` keys used by `localStorage.ts`. -/
structure Storage where
  gameState : Option StoredGameState
  username : Option String
  gameMode : Option String
  lastUpdated : Option Nat
deriving Repr, DecidableEq

/-- Storage with no keys set. -/
def emptyStorage : Storage :=
  { gameState := none, username := none, gameMode := none, lastUpdated := none }

/-- `saveUsername`: sets the username key and refreshes the
`connect4_lastUpdated` timestamp. -/
def saveUsername (now : Nat) (u : String) (s : Storage) : Storage :=
  { s with username := some u, lastUpdated := some now }

/-- `saveGameMode`: sets the mode key and refreshes the timestamp. -/
def saveGameMode (now : Nat) (m : String) (s : Storage) : Storage :=
  { s with gameMode := some m, lastUpdated := some now }

/-- `saveGameState`: sets the game-state key and refreshes the timestamp. -/
def saveGameState (now : Nat) (g : StoredGameState) (s : Storage) : Storage :=
  { s with gameState := some g, lastUpdated := some now }

/-- `clearGameState`: removes `connect4_gameState` AND
`connect4_lastUpdated` (the code removes both keys). -/
def clearGameState (s : Storage) : Storage :=
  { s with gameState := none, lastUpdated := none }

/-- `clearGameMode`: removes `connect4_gameMode` AND
`connect4_lastUpdated` (the code removes both keys). -/
def clearGameMode (s : Storage) : Storage :=
  { s with gameMode := none, lastUpdated := none }

/-- The 24-hour staleness bound, in milliseconds (`maxAge`). -/
def maxAge : Nat := 24 * 60 * 60 * 1000

/-- `isStoredDataValid`: true when a `connect4_lastUpdated` timestamp
exists and `now - timestamp < maxAge`.  (JS subtraction of a future
timestamp is negative, hence `< maxAge`; `Nat` truncation to `0` agrees.) -/
def isStoredDataValid (now : Nat) (s : Storage) : Bool :=
  match s.lastUpdated with
  | none => false
  | some t => decide (now - t < maxAge)

/-- `loadUsername`: returns the stored username only while
`isStoredDataValid` holds. -/
def loadUsername (now : Nat) (s : Storage) : Option String :=
  if isStoredDataValid now s then s.username else none

/-- `loadGameMode`: returns the stored mode when it is one of the two
literals; it performs NO staleness check. -/
def loadGameMode (s : Storage) : Option String :=
  match s.gameMode with
  | some m => if m = "friend" ∨ m = "computer" then some m else none
  | none => none

/-- `loadGameState`: returns the stored snapshot, with no staleness check. -/
def loadGameState (s : Storage) : Option StoredGameState :=
  s.gameState

/-! ## ConnectionManager (`src/App.tsx`, `connectWebSocket`) -/

/-- `MAX_RETRIES` in `connectWebSocket`. -/
def MAX_RETRIES : Nat := 5

/-- `INITIAL_RETRY_DELAY` in `connectWebSocket` (milliseconds). -/
def INITIAL_RETRY_DELAY : Nat := 1000

/-- The mutable `retryCount` / `retryDelay` pair captured by
`connectWebSocket`'s closure. -/
structure RetryState where
  retryCount : Nat
  retryDelay : Nat
deriving Repr, DecidableEq

/-- The retry state at the start of `connectWebSocket`. -/
def initialRetry : RetryState :=
  { retryCount := 0, retryDelay := INITIAL_RETRY_DELAY }

/-- What `ws.onclose` does for an unexpected close of the active socket
(not unloading): either schedules a reconnect after a delay, or shows
the fatal alert. -/
inductive CloseAction where
  | scheduleReconnect (delayMs : Nat)
  | fatalAlert
deriving Repr, DecidableEq

/-- One unexpected close of the tracked socket: the code tests
`retryCount < MAX_RETRIES`, then increments `retryCount`, doubles
`retryDelay`, and schedules `connect` after the DOUBLED delay; past the
ceiling it alerts and leaves the state alone. -/
def onCloseStep (s : RetryState) : CloseAction × RetryState :=
  if s.retryCount < MAX_RETRIES then
    (CloseAction.scheduleReconnect (s.retryDelay * 2),
     { retryCount := s.retryCount + 1, retryDelay := s.retryDelay * 2 })
  else
    (CloseAction.fatalAlert, s)

/-- Retry state after `n` consecutive unexpected closes with no
intervening successful open. -/
def stateAfterCloses : Nat → RetryState
  | 0 => initialRetry
  | n + 1 => (onCloseStep (stateAfterCloses n)).2

/-- The join frame `{type:'join', payload:{username, gameMode}}`. -/
structure JoinFrame where
  username : String
  gameMode : String
deriving Repr, DecidableEq

/-- Everything `ws.onopen` does (first `App.tsx` variant, lines 83-100):
marks the connection up, publishes the socket, resets the retry
counters to their initial values, and schedules the join send through
`setTimeout(..., 100)` — a 100 ms delay between the open event and the
send. -/
structure OpenHandlerEffect where
  isConnected : Bool
  retry : RetryState
  joinMessage : JoinFrame
  joinSendDelayMs : Nat
deriving Repr, DecidableEq

/-- The `ws.onopen` handler of `connectWebSocket`. -/
def onOpen (username mode : String) : OpenHandlerEffect :=
  { isConnected := true
    retry := { retryCount := 0, retryDelay := INITIAL_RETRY_DELAY }
    joinMessage := { username := username, gameMode := mode }
    joinSendDelayMs := 100 }

/-! ## GameStateReconciler (`GameBoard.tsx`, `messageHandler`)

The wire payload of a `gameStart`/`gameState` frame is modelled with
one `Option` field per JSON field the handler reads, keeping the dual
capitalised/lowercase field names the server may use.  Payload cells
and rows are modelled as number lists (the handler's branch replacing a
non-array row with a zero row is outside this input space). -/

/-- A player object as it appears on the wire, with either casing of
each field; `none` is an absent field. -/
structure WirePlayer where
  Username : Option String
  ID : Option String
  IsBot : Option Bool
  username : Option String
  id : Option String
  isBot : Option Bool
deriving Repr, DecidableEq

/-- JS truthiness for an optional string: absent and `""` are falsy. -/
def strTruthy : Option String → Option String
  | some s => if s = "" then none else some s
  | none => none

/-- JS `a || b` restricted to the truthy value it selects (`none` when
both operands are falsy — every use site only needs truthiness of the
final fallback). -/
def orT (a b : Option String) : Option String :=
  match strTruthy a with
  | some s => some s
  | none => strTruthy b

/-- `normalizePlayer` of `messageHandler`: rejects absent/empty objects,
takes the first truthy of `Username || username || ID || id` as the
username (symmetrically for the id), reads `IsBot`/`isBot` by presence,
and rejects when both username and id are falsy. -/
def normalizePlayer (p : WirePlayer) : Option Player :=
  if p.Username = none ∧ p.ID = none ∧ p.IsBot = none ∧
     p.username = none ∧ p.id = none ∧ p.isBot = none then
    none
  else
    let u := orT (orT p.Username p.username) (orT p.ID p.id)
    let i := orT (orT p.ID p.id) (orT p.Username p.username)
    let bot := p.IsBot.getD (p.isBot.getD false)
    if u = none ∧ i = none then none
    else some { username := u.getD (i.getD ""), id := i.getD (u.getD ""), isBot := bot }

/-- The default empty 6×7 board. -/
def emptyBoard : List (List Nat) :=
  List.replicate 6 (List.replicate 7 0)

/-- Row normalization: a 7-cell row is kept, a shorter row is padded
with zeros; a longer row makes `Array(7 - row.length)` throw a
`RangeError` (modelled as `none`), which aborts the whole handler. -/
def padRow (r : List Nat) : Option (List Nat) :=
  if r.length = 7 then some r
  else if r.length < 7 then some (r ++ List.replicate (7 - r.length) 0)
  else none

/-- `board.map(padRow)` with the `RangeError` propagated. -/
def padRows : List (List Nat) → Option (List (List Nat))
  | [] => some []
  | r :: rs =>
      match padRow r, padRows rs with
      | some r2, some rs2 => some (r2 :: rs2)
      | _, _ => none

/-- Board normalization of `messageHandler`: a missing/non-array/empty
board becomes the empty 6×7 board; otherwise rows are padded to width
7, the board is extended with zero rows to at least 6 rows and then
truncated to exactly 6; an over-wide row raises (→ `none`). -/
def normalizeBoard (b : Option (List (List Nat))) : Option (List (List Nat)) :=
  match b with
  | none => some emptyBoard
  | some rows =>
      if rows.length = 0 then some emptyBoard
      else
        match padRows rows with
        | none => none
        | some padded =>
            some ((padded ++ List.replicate (6 - padded.length) (List.replicate 7 0)).take 6)

/-- The string the client status renders to on the wire (used for the
`|| prevState.status` fallback in status normalization). -/
def statusStr : Status → String
  | Status.waiting => "waiting"
  | Status.in_progress => "in_progress"
  | Status.completed => "completed"
  | Status.draw => "draw"

/-- The fields of a `gameStart`/`gameState` payload that
`messageHandler` reads, each optional, keeping both field casings. -/
structure WirePayload where
  board : Option (List (List Nat))
  currentTurn : Option Nat
  Status : Option String
  status : Option String
  winner : Option WirePlayer
  Player1 : Option WirePlayer
  player1 : Option WirePlayer
  Player2 : Option WirePlayer
  player2 : Option WirePlayer
  lastMove : Option LastMove
deriving Repr, DecidableEq

/-- The two authoritative message kinds routed to the reconciler. -/
inductive MsgType where
  | gameStart
  | gameState
deriving Repr, DecidableEq

/-- The reconciler-owned React state: the game state plus the pending
optimistic move. -/
structure ClientState where
  game : GameState
  pendingMove : Option Pending
deriving Repr, DecidableEq

/-- JS `payload.Player1 || payload.player1`: any present object (even
an empty one) is truthy, an absent field falls through. -/
def orPlayer (a b : Option WirePlayer) : Option WirePlayer :=
  match a with
  | some x => some x
  | none => b

/-- Player-slot resolution of `messageHandler`: start from the previous
slot (or `undefined` for `gameStart`), and overwrite it with the
normalized payload player when the payload carries one that
normalizes. -/
def resolvePlayer (isGameStart : Bool) (fromPayload : Option WirePlayer)
    (prev : Option Player) : Option Player :=
  let init := if isGameStart then none else prev
  match fromPayload with
  | none => init
  | some wp =>
      match normalizePlayer wp with
      | some pl => some pl
      | none => init

/-- The `finalStatus` computation of `messageHandler`. -/
def finalStatus (isGameStart : Bool) (p1 p2 : Option Player)
    (normalizedStatus : String) : Status :=
  if p1.isSome ∧ p2.isSome then
    if isGameStart then Status.in_progress
    else if normalizedStatus = "completed" ∨ normalizedStatus = "finished" then
      Status.completed
    else if normalizedStatus = "draw" ∨ normalizedStatus = "tie" then Status.draw
    else Status.in_progress
  else
    if normalizedStatus = "in_progress" ∨ normalizedStatus = "in-progress" ∨
       normalizedStatus = "inProgress" then Status.in_progress
    else if normalizedStatus = "completed" ∨ normalizedStatus = "finished" then
      Status.completed
    else if normalizedStatus = "draw" ∨ normalizedStatus = "tie" then Status.draw
    else Status.waiting

/-- `messageHandler`'s `gameStart`/`gameState` branch: normalizes the
board (a thrown `RangeError` leaves the state untouched), resolves the
player slots, computes the status, builds the new `GameState` record
— `currentTurn`/`winner`/`lastMove` fall back to the previous state
when absent from the payload — and clears the pending move. -/
def applyGameMsg (t : MsgType) (p : WirePayload) (st : ClientState) : ClientState :=
  match normalizeBoard p.board with
  | none => st
  | some board =>
      let prev := st.game
      let isGameStart := t = MsgType.gameStart
      let n1 := resolvePlayer isGameStart (orPlayer p.Player1 p.player1) prev.player1
      let n2 := resolvePlayer isGameStart (orPlayer p.Player2 p.player2) prev.player2
      let normalizedStatus := (orT p.Status p.status).getD (statusStr prev.status)
      { game :=
          { board := board
            currentTurn := p.currentTurn.getD prev.currentTurn
            status := finalStatus isGameStart n1 n2 normalizedStatus
            winner :=
              match p.winner with
              | some w => normalizePlayer w
              | none => prev.winner
            player1 := n1
            player2 := n2
            lastMove :=
              match p.lastMove with
              | some m => some m
              | none => prev.lastMove }
        pendingMove := none }

/-- Folding a sequence of authoritative messages over the client state. -/
def applyAll (msgs : List (MsgType × WirePayload)) (st : ClientState) : ClientState :=
  msgs.foldl (fun s m => applyGameMsg m.1 m.2 s) st

/-! ## Turn derivation and the optimistic move (`GameBoard.tsx`) -/

/-- `getEffectiveStatus`: when both player slots are populated but the
status still reads waiting, report in_progress. -/
def effectiveStatus (st : GameState) : Status :=
  if st.player1.isSome ∧ st.player2.isSome ∧ st.status = Status.waiting then
    Status.in_progress
  else st.status

/-- The `myTurn` computation of the turn-check effect: effective status
must be in_progress and the local username must match the player slot
selected by `currentTurn`. -/
def myTurn (username : String) (st : GameState) : Bool :=
  let isPlayer1 := st.player1.map Player.username = some username
  let isPlayer2 := st.player2.map Player.username = some username
  decide (effectiveStatus st = Status.in_progress) &&
    ((decide (st.currentTurn = 1) && decide isPlayer1) ||
     (decide (st.currentTurn = 2) && decide isPlayer2))

/-- `PENDING_MOVE_TIMEOUT_MS` (milliseconds). -/
def PENDING_MOVE_TIMEOUT_MS : Nat := 2000

/-- `FRIEND_WAITING_TIMEOUT_MS` (milliseconds). -/
def FRIEND_WAITING_TIMEOUT_MS : Nat := 10000

/-- The cell at `board[r][c]`, `none` when either index is out of range
(JS `undefined`). -/
def cellAt (board : List (List Nat)) (r c : Nat) : Option Nat :=
  (board.get? r).bind fun rw => rw.get? c

/-- The scan loop of `handleColumnClick`
(`while (row >= 0 && board[row] && board[row][col] !== 0) row--`),
started at `row`: stops at the first row whose array is missing or
whose cell at `col` is an exact `0`; `none` means the loop ran past row
0 (column full). -/
def lowestEmptyRowFrom (board : List (List Nat)) (col : Nat) : Nat → Option Nat
  | 0 =>
      match board.get? 0 with
      | none => some 0
      | some rw => if rw.get? col ≠ some 0 then none else some 0
  | row + 1 =>
      match board.get? (row + 1) with
      | none => some (row + 1)
      | some rw =>
          if rw.get? col ≠ some 0 then lowestEmptyRowFrom board col row
          else some (row + 1)

/-- The guarded optimistic write
(`if (newBoard[row] && newBoard[row][col] === 0) newBoard[row][col] = p`). -/
def writeCell (board : List (List Nat)) (row col v : Nat) : List (List Nat) :=
  match board.get? row with
  | none => board
  | some rw => if rw.get? col = some 0 then board.set row (rw.set col v) else board

/-- The inputs `handleColumnClick` closes over: the game state, the
current pending move, the `isMyTurn` React state, the local username,
whether the socket's `readyState` is `OPEN`, and whether
`websocket.send` succeeds. -/
structure ClickEnv where
  state : GameState
  pending : Option Pending
  isMyTurn : Bool
  username : String
  wsOpen : Bool
  sendOk : Bool
deriving Repr, DecidableEq

/-- What a column click leaves behind: the game state, the pending-move
state, the column of a `move` frame handed to `websocket.send` (if
any), and the delay of the scheduled pending-move clearing timer (if
scheduled). -/
structure ClickOutcome where
  state : GameState
  pending : Option Pending
  sentMove : Option Nat
  timeoutMs : Option Nat
deriving Repr, DecidableEq

/-- `handleColumnClick`: refuse unless it is the player's turn and the
effective status is in_progress; scan the column bottom-up and refuse
when full; derive the acting player by comparing the username against
player1; refuse before any mutation when the socket is not OPEN;
otherwise write the cell, set `lastMove`, flip `currentTurn`, record
the pending move, send the `move` frame — rolling board, `lastMove`,
`currentTurn` and the pending move back if the send throws — and
schedule the 2-second pending-move clearing. -/
def handleColumnClick (env : ClickEnv) (col : Nat) : ClickOutcome :=
  if ¬ (env.isMyTurn = true ∧ effectiveStatus env.state = Status.in_progress) then
    { state := env.state, pending := env.pending, sentMove := none, timeoutMs := none }
  else
    match lowestEmptyRowFrom env.state.board col 5 with
    | none =>
        { state := env.state, pending := env.pending, sentMove := none,
          timeoutMs := none }
    | some row =>
        let currentPlayer :=
          if env.state.player1.map Player.username = some env.username then 1 else 2
        if env.wsOpen = false then
          { state := env.state, pending := env.pending, sentMove := none,
            timeoutMs := none }
        else
          let newState : GameState :=
            { env.state with
                board := writeCell env.state.board row col currentPlayer
                lastMove := some { row := row, column := col, player := currentPlayer }
                currentTurn := 3 - currentPlayer }
          if env.sendOk then
            { state := newState
              pending := some { row := row, col := col, player := currentPlayer }
              sentMove := some col
              timeoutMs := some PENDING_MOVE_TIMEOUT_MS }
          else
            { state :=
                { newState with
                    board := env.state.board
                    lastMove := env.state.lastMove
                    currentTurn := env.state.currentTurn }
              pending := none
              sentMove := some col
              timeoutMs := none }

/-! ## MatchmakingTimer (`GameBoard.tsx`, the 10-second friend-waiting
timeout effect) -/

/-- The `stillWaiting` re-check inside the expired timer callback:
reads the persisted snapshot and mode fresh from storage
(`(!currentState || currentState.status === 'waiting') &&
loadGameMode() === 'friend' && (!currentState?.player1 ||
!currentState?.player2)`). -/
def stillWaitingCheck (currentState : Option StoredGameState)
    (storedMode : Option String) : Bool :=
  (currentState.isNone ||
     decide (currentState.map StoredGameState.status = some Status.waiting)) &&
  decide (storedMode = some "friend") &&
  ((currentState.bind StoredGameState.player1).isNone ||
   (currentState.bind StoredGameState.player2).isNone)

/-- The observable actions of the expired friend-waiting timer: the mode
written to storage, whether a `cancelWaiting` frame was sent, the
settle delay before the rejoin, and the join frame sent after it. -/
structure ExpiryEffect where
  savedMode : Option String
  cancelWaitingSent : Bool
  settleDelayMs : Option Nat
  joinSent : Option JoinFrame
deriving Repr, DecidableEq

/-- The friend-waiting timer's expiry callback: when the session is
still waiting in friend mode and the socket is open, it writes the mode
"computer" to storage, sends `cancelWaiting`, and 100 ms later (if the
socket is still open) sends a fresh join frame with
`gameMode:"computer"`. -/
def onFriendWaitingExpiry (username : String)
    (currentState : Option StoredGameState) (storedMode : Option String)
    (wsOpen wsOpenAtSettle : Bool) : ExpiryEffect :=
  if stillWaitingCheck currentState storedMode && wsOpen then
    { savedMode := some "computer"
      cancelWaitingSent := true
      settleDelayMs := some 100
      joinSent :=
        if wsOpenAtSettle then some { username := username, gameMode := "computer" }
        else none }
  else
    { savedMode := none, cancelWaitingSent := false, settleDelayMs := none,
      joinSent := none }

end Connect4

/-! ## Theorems -/

namespace Connect4

/-- Rows that are already 7 wide pass through `padRows` unchanged. -/
theorem padRows_id (rows : List (List Nat)) (h : ∀ r ∈ rows, r.length = 7) :
    padRows rows = some rows := by
  induction rows with
  | nil => rfl
  | cons r rs ih =>
      have hr : r.length = 7 := h r (by simp)
      have hrs : padRows rs = some rs := ih (fun x hx => h x (by simp [hx]))
      simp [padRows, padRow, hr, hrs]

/-- A well-formed 6×7 board passes through `normalizeBoard` unchanged. -/
theorem normalizeBoard_of_wf (b : List (List Nat)) (hlen : b.length = 6)
    (hw : ∀ r ∈ b, r.length = 7) : normalizeBoard (some b) = some b := by
  have h0 : ¬ b.length = 0 := by omega
  simp only [normalizeBoard, h0, if_false, padRows_id b hw]
  simp [hlen]

/-- The bottom-up scan runs off the board when every row in the column
holds a present, non-zero cell. -/
theorem lowestEmptyRowFrom_of_full (board : List (List Nat)) (col : Nat) :
    ∀ n, (∀ r, r ≤ n →
        (cellAt board r col).isSome = true ∧ cellAt board r col ≠ some 0) →
      lowestEmptyRowFrom board col n = none := by
  intro n
  induction n with
  | zero =>
      intro h
      obtain ⟨hsome, hne⟩ := h 0 (Nat.le_refl 0)
      obtain ⟨v, hv⟩ := Option.isSome_iff_exists.mp hsome
      obtain ⟨rw0, hrw, hcell⟩ := Option.bind_eq_some.mp hv
      have hcne : rw0.get? col ≠ some 0 := by
        intro hc
        apply hne
        rw [cellAt, hrw, Option.some_bind]
        exact hc
      simp only [lowestEmptyRowFrom, hrw]
      simp only [List.get?_eq_getElem?] at hcne
      simp [hcne]
  | succ n ih =>
      intro h
      obtain ⟨hsome, hne⟩ := h (n + 1) (Nat.le_refl _)
      obtain ⟨v, hv⟩ := Option.isSome_iff_exists.mp hsome
      obtain ⟨rw0, hrw, hcell⟩ := Option.bind_eq_some.mp hv
      have hcne : rw0.get? col ≠ some 0 := by
        intro hc
        apply hne
        rw [cellAt, hrw, Option.some_bind]
        exact hc
      have hrec := ih (fun r hr => h r (Nat.le_succ_of_le hr))
      simp only [lowestEmptyRowFrom, hrw]
      simp only [List.get?_eq_getElem?] at hcne
      simp [hcne, hrec]

/-- C1 counterexample: an authoritative `gameState` payload that omits
`lastMove`, `currentTurn` and `winner` is merged field-by-field with
the stale local values — the previous `lastMove`, `currentTurn` and
`winner` survive into the result instead of being replaced from the
payload. -/
theorem reconcileKeepsStaleFields :
    (applyGameMsg MsgType.gameState
        ⟨some emptyBoard, none, none, some "in_progress", none, none, none, none,
          none, none⟩
        ⟨⟨emptyBoard, 2, Status.in_progress, some ⟨"carol", "c1", false⟩,
            some ⟨"alice", "alice", false⟩,
            some ⟨"bob", "bob", false⟩, some ⟨0, 0, 1⟩⟩, none⟩).game.lastMove
      = some ⟨0, 0, 1⟩ ∧
    (WirePayload.lastMove
        ⟨some emptyBoard, none, none, some "in_progress", none, none, none, none,
          none, none⟩) = none ∧
    (applyGameMsg MsgType.gameState
        ⟨some emptyBoard, none, none, some "in_progress", none, none, none, none,
          none, none⟩
        ⟨⟨emptyBoard, 2, Status.in_progress, some ⟨"carol", "c1", false⟩,
            some ⟨"alice", "alice", false⟩,
            some ⟨"bob", "bob", false⟩, some ⟨0, 0, 1⟩⟩, none⟩).game.currentTurn
      = 2 ∧
    (WirePayload.winner
        ⟨some emptyBoard, none, none, some "in_progress", none, none, none, none,
          none, none⟩) = none ∧
    (applyGameMsg MsgType.gameState
        ⟨some emptyBoard, none, none, some "in_progress", none, none, none, none,
          none, none⟩
        ⟨⟨emptyBoard, 2, Status.in_progress, some ⟨"carol", "c1", false⟩,
            some ⟨"alice", "alice", false⟩,
            some ⟨"bob", "bob", false⟩, some ⟨0, 0, 1⟩⟩, none⟩).game.winner
      = some ⟨"carol", "c1", false⟩ := by
  decide

/-- C1 (amended): for every authoritative `gameStart`/`gameState`
message whose board normalizes successfully (no row wider than 7), the
in-memory board is fully replaced by the normalized payload board —
never merged with the previous board — so over any message sequence
the board equals the last payload's normalized board, and for a
well-formed 6×7 payload board the normalized board is the payload
board itself; `currentTurn`, `lastMove` and `winner` are NOT fully
replaced: each is taken from the payload when the payload carries it
(the winner via `normalizePlayer`) but retains the stale local value
when the payload omits it; the pending move is cleared. -/
theorem reconcileBoardFullReplace (t : MsgType) (p : WirePayload)
    (st : ClientState) (nb : List (List Nat))
    (hnb : normalizeBoard p.board = some nb) :
    (applyGameMsg t p st).game.board = nb ∧
    (∀ msgs st0, (applyAll (msgs ++ [(t, p)]) st0).game.board = nb) ∧
    (∀ b, p.board = some b → b.length = 6 → (∀ r ∈ b, r.length = 7) → nb = b) ∧
    (∀ n, p.currentTurn = some n → (applyGameMsg t p st).game.currentTurn = n) ∧
    (∀ m, p.lastMove = some m → (applyGameMsg t p st).game.lastMove = some m) ∧
    (∀ w, p.winner = some w →
      (applyGameMsg t p st).game.winner = normalizePlayer w) ∧
    (p.currentTurn = none →
      (applyGameMsg t p st).game.currentTurn = st.game.currentTurn) ∧
    (p.lastMove = none → (applyGameMsg t p st).game.lastMove = st.game.lastMove) ∧
    (p.winner = none → (applyGameMsg t p st).game.winner = st.game.winner) ∧
    (applyGameMsg t p st).pendingMove = none := by
  have hboard : ∀ s : ClientState, (applyGameMsg t p s).game.board = nb := by
    intro s
    unfold applyGameMsg
    rw [hnb]
  refine ⟨hboard st, ?_, ?_, ?_, ?_, ?_, ?_, ?_, ?_, ?_⟩
  · intro msgs st0
    have : applyAll (msgs ++ [(t, p)]) st0 = applyGameMsg t p (applyAll msgs st0) := by
      unfold applyAll
      rw [List.foldl_append]
      rfl
    rw [this]
    exact hboard _
  · intro b hb hlen hw
    rw [hb, normalizeBoard_of_wf b hlen hw] at hnb
    exact (Option.some.injEq _ _ ▸ hnb).symm
  · intro n hn
    unfold applyGameMsg
    rw [hnb]
    simp [hn]
  · intro m hm
    unfold applyGameMsg
    rw [hnb]
    simp [hm]
  · intro w hw
    unfold applyGameMsg
    rw [hnb]
    simp [hw]
  · intro hn
    unfold applyGameMsg
    rw [hnb]
    simp [hn]
  · intro hm
    unfold applyGameMsg
    rw [hnb]
    simp [hm]
  · intro hw
    unfold applyGameMsg
    rw [hnb]
    simp [hw]
  · unfold applyGameMsg
    rw [hnb]

/-- Witness for `reconcileBoardFullReplace` at a concrete message
(payload carrying a well-formed board, a `currentTurn` and a winner,
applied to a fresh waiting state). -/
theorem reconcileBoardFullReplace_witness :
    (applyGameMsg MsgType.gameState
        ⟨some emptyBoard, some 1, none, none,
          some ⟨some "carol", some "c1", some false, none, none, none⟩,
          none, none, none, none, none⟩
        ⟨⟨emptyBoard, 1, Status.waiting, none, none, none, none⟩, none⟩).game.board
      = emptyBoard ∧
    (∀ msgs st0,
      (applyAll (msgs ++
          [(MsgType.gameState,
            ⟨some emptyBoard, some 1, none, none,
              some ⟨some "carol", some "c1", some false, none, none, none⟩,
              none, none, none, none, none⟩)]) st0).game.board = emptyBoard) ∧
    (∀ b,
      WirePayload.board
          ⟨some emptyBoard, some 1, none, none,
            some ⟨some "carol", some "c1", some false, none, none, none⟩,
            none, none, none, none, none⟩ = some b →
      b.length = 6 → (∀ r ∈ b, r.length = 7) → emptyBoard = b) ∧
    (∀ n,
      WirePayload.currentTurn
          ⟨some emptyBoard, some 1, none, none,
            some ⟨some "carol", some "c1", some false, none, none, none⟩,
            none, none, none, none, none⟩ = some n →
      (applyGameMsg MsgType.gameState
          ⟨some emptyBoard, some 1, none, none,
            some ⟨some "carol", some "c1", some false, none, none, none⟩,
            none, none, none, none, none⟩
          ⟨⟨emptyBoard, 1, Status.waiting, none, none, none, none⟩,
            none⟩).game.currentTurn = n) ∧
    (∀ m,
      WirePayload.lastMove
          ⟨some emptyBoard, some 1, none, none,
            some ⟨some "carol", some "c1", some false, none, none, none⟩,
            none, none, none, none, none⟩ = some m →
      (applyGameMsg MsgType.gameState
          ⟨some emptyBoard, some 1, none, none,
            some ⟨some "carol", some "c1", some false, none, none, none⟩,
            none, none, none, none, none⟩
          ⟨⟨emptyBoard, 1, Status.waiting, none, none, none, none⟩,
            none⟩).game.lastMove = some m) ∧
    (∀ w,
      WirePayload.winner
          ⟨some emptyBoard, some 1, none, none,
            some ⟨some "carol", some "c1", some false, none, none, none⟩,
            none, none, none, none, none⟩ = some w →
      (applyGameMsg MsgType.gameState
          ⟨some emptyBoard, some 1, none, none,
            some ⟨some "carol", some "c1", some false, none, none, none⟩,
            none, none, none, none, none⟩
          ⟨⟨emptyBoard, 1, Status.waiting, none, none, none, none⟩,
            none⟩).game.winner = normalizePlayer w) ∧
    (WirePayload.currentTurn
        ⟨some emptyBoard, some 1, none, none,
          some ⟨some "carol", some "c1", some false, none, none, none⟩,
          none, none, none, none, none⟩ = none →
      (applyGameMsg MsgType.gameState
          ⟨some emptyBoard, some 1, none, none,
            some ⟨some "carol", some "c1", some false, none, none, none⟩,
            none, none, none, none, none⟩
          ⟨⟨emptyBoard, 1, Status.waiting, none, none, none, none⟩,
            none⟩).game.currentTurn = 1) ∧
    (WirePayload.lastMove
        ⟨some emptyBoard, some 1, none, none,
          some ⟨some "carol", some "c1", some false, none, none, none⟩,
          none, none, none, none, none⟩ = none →
      (applyGameMsg MsgType.gameState
          ⟨some emptyBoard, some 1, none, none,
            some ⟨some "carol", some "c1", some false, none, none, none⟩,
            none, none, none, none, none⟩
          ⟨⟨emptyBoard, 1, Status.waiting, none, none, none, none⟩,
            none⟩).game.lastMove = none) ∧
    (WirePayload.winner
        ⟨some emptyBoard, some 1, none, none,
          some ⟨some "carol", some "c1", some false, none, none, none⟩,
          none, none, none, none, none⟩ = none →
      (applyGameMsg MsgType.gameState
          ⟨some emptyBoard, some 1, none, none,
            some ⟨some "carol", some "c1", some false, none, none, none⟩,
            none, none, none, none, none⟩
          ⟨⟨emptyBoard, 1, Status.waiting, none, none, none, none⟩,
            none⟩).game.winner = none) ∧
    (applyGameMsg MsgType.gameState
        ⟨some emptyBoard, some 1, none, none,
          some ⟨some "carol", some "c1", some false, none, none, none⟩,
          none, none, none, none, none⟩
        ⟨⟨emptyBoard, 1, Status.waiting, none, none, none, none⟩,
          none⟩).pendingMove = none :=
  reconcileBoardFullReplace MsgType.gameState
    ⟨some emptyBoard, some 1, none, none,
      some ⟨some "carol", some "c1", some false, none, none, none⟩,
      none, none, none, none, none⟩
    ⟨⟨emptyBoard, 1, Status.waiting, none, none, none, none⟩, none⟩
    emptyBoard (by decide)

/-- After up to five closes the retry state is exactly
`(n, 1000 * 2^n)`. -/
theorem stateAfterCloses_le_five :
    ∀ n, n ≤ 5 → stateAfterCloses n = ⟨n, 1000 * 2 ^ n⟩ := by
  decide

/-- Once the ceiling is reached the state is frozen. -/
theorem stateAfterCloses_ge_five (k : Nat) :
    stateAfterCloses (5 + k) = ⟨5, 32000⟩ := by
  induction k with
  | zero => decide
  | succ k ih =>
      have h : 5 + (k + 1) = (5 + k) + 1 := by omega
      rw [h]
      show (onCloseStep (stateAfterCloses (5 + k))).2 = _
      rw [ih]
      decide

/-- C4 counterexample: the very first unexpected close schedules its
reconnect after 2000 ms, not 1000 ms — `retryDelay` is doubled before
being used, so the backoff sequence does not start at 1000 ms. -/
theorem firstReconnectDelayIs2000 :
    (onCloseStep initialRetry).1 = CloseAction.scheduleReconnect 2000 ∧
    (2000 : Nat) ≠ 1000 := by
  decide

/-- C4 (amended): from a fresh `connectWebSocket` invocation, the N-th
unexpected close (N counted from 1, i.e. after `n = N - 1` earlier
closes) schedules reconnect attempt N with delay `1000 * 2^N` ms while
`n < 5` — so the delays are 2000, 4000, ..., 32000, each double the
previous — and every close after the fifth produces the fatal alert
instead of scheduling, hence at most 5 reconnect attempts are ever
scheduled. -/
theorem reconnectBackoffSchedule :
    (∀ n, n < 5 →
      (onCloseStep (stateAfterCloses n)).1 =
        CloseAction.scheduleReconnect (1000 * 2 ^ (n + 1))) ∧
    (∀ n, 5 ≤ n → (onCloseStep (stateAfterCloses n)).1 = CloseAction.fatalAlert) := by
  constructor
  · decide
  · intro n hn
    obtain ⟨k, rfl⟩ : ∃ k, n = 5 + k := ⟨n - 5, by omega⟩
    rw [stateAfterCloses_ge_five]
    decide

/-- Witness for `reconnectBackoffSchedule` at concrete attempt indices. -/
theorem reconnectBackoffSchedule_witness :
    (onCloseStep (stateAfterCloses 0)).1 = CloseAction.scheduleReconnect (1000 * 2 ^ 1) ∧
    (onCloseStep (stateAfterCloses 7)).1 = CloseAction.fatalAlert :=
  ⟨reconnectBackoffSchedule.1 0 (by decide), reconnectBackoffSchedule.2 7 (by decide)⟩

/-- C6: on open the retry counter and backoff delay ARE reset to their
initial values, but the join message is NOT sent immediately — the
handler interposes a 100 ms `setTimeout` between the open event and the
send, contradicting the repository documentation ("Join message sent
immediately when WebSocket opens"). -/
theorem onOpenResetsButDelaysJoin :
    (onOpen "alice" "friend").retry = initialRetry ∧
    (onOpen "alice" "friend").joinMessage = ⟨"alice", "friend"⟩ ∧
    (onOpen "alice" "friend").joinSendDelayMs = 100 ∧
    (onOpen "alice" "friend").joinSendDelayMs ≠ 0 := by
  refine ⟨rfl, rfl, rfl, ?_⟩
  decide

/-- C7: saving a username and then performing the exit-to-mode-selection
clears (`clearGameState` followed by `clearGameMode`) leaves the
username key itself in storage, yet `loadUsername` returns `none` even
with no time elapsed, because both clear functions also remove the
shared `connect4_lastUpdated` key that `loadUsername` requires. -/
theorem loadUsernameLostAfterClears :
    loadUsername 0 (clearGameMode (clearGameState (saveUsername 0 "alice" emptyStorage)))
      = none ∧
    (clearGameMode (clearGameState (saveUsername 0 "alice" emptyStorage))).username
      = some "alice" := by
  decide

/-- C8 counterexample: a stored game mode whose last write was more than
24 hours ago (timestamp 0, now = 86400001 ms) is still returned by
`loadGameMode`, because `loadGameMode` performs no staleness check —
even though `isStoredDataValid` already reports the data stale. -/
theorem loadGameModeIgnoresStaleness :
    loadGameMode ⟨none, none, some "friend", some 0⟩ = some "friend" ∧
    isStoredDataValid 86400001 ⟨none, none, some "friend", some 0⟩ = false := by
  decide

/-- C8 (amended): a `loadUsername` performed at least 24 hours after the
last write returns `none` even though the username key still exists,
but `loadGameMode` has no staleness check: it returns any stored
`"friend"`/`"computer"` mode regardless of the timestamp. -/
theorem staleLoadBehaviour :
    (∀ now t s, Storage.lastUpdated s = some t → maxAge ≤ now - t →
      loadUsername now s = none) ∧
    (∀ s m, Storage.gameMode s = some m → (m = "friend" ∨ m = "computer") →
      loadGameMode s = some m) := by
  constructor
  · intro now t s ht hage
    unfold loadUsername isStoredDataValid
    rw [ht]
    have : ¬ (now - t < maxAge) := by omega
    simp [this]
  · intro s m hm hvalid
    unfold loadGameMode
    rw [hm]
    simp [hvalid]

/-- Witness for `staleLoadBehaviour` at a concrete stale storage. -/
theorem staleLoadBehaviour_witness :
    loadUsername 86400001 ⟨none, some "bob", some "friend", some 0⟩ = none ∧
    loadGameMode ⟨none, some "bob", some "computer", some 5⟩ = some "computer" :=
  ⟨staleLoadBehaviour.1 86400001 0 ⟨none, some "bob", some "friend", some 0⟩ rfl
      (by decide),
   staleLoadBehaviour.2 ⟨none, some "bob", some "computer", some 5⟩ "computer" rfl
      (Or.inr rfl)⟩

/-- C2: on an empty 6×7 board with status in_progress, `currentTurn = 1`
and the local username matching player1, the turn check grants the
turn, and clicking column 3 over an open socket places the token at row
5 (bottom), sets `lastMove = {row:5, column:3, player:1}`, flips
`currentTurn` to 2, records the pending move `{5, 3, 1}`, sends the
`move` frame for column 3, and schedules the pending-move clearing
after the fixed 2000 ms timeout; every successfully reconciled
authoritative message clears the pending move. -/
theorem optimisticMoveScenario (u : String) (p1 p2 : Player)
    (pend0 : Option Pending) (h1 : p1.username = u) :
    myTurn u ⟨emptyBoard, 1, Status.in_progress, none, some p1, some p2, none⟩
      = true ∧
    handleColumnClick
        ⟨⟨emptyBoard, 1, Status.in_progress, none, some p1, some p2, none⟩,
          pend0, true, u, true, true⟩ 3 =
      ⟨⟨[[0, 0, 0, 0, 0, 0, 0], [0, 0, 0, 0, 0, 0, 0], [0, 0, 0, 0, 0, 0, 0],
          [0, 0, 0, 0, 0, 0, 0], [0, 0, 0, 0, 0, 0, 0], [0, 0, 0, 1, 0, 0, 0]],
        2, Status.in_progress, none, some p1, some p2, some ⟨5, 3, 1⟩⟩,
        some ⟨5, 3, 1⟩, some 3, some PENDING_MOVE_TIMEOUT_MS⟩ ∧
    PENDING_MOVE_TIMEOUT_MS = 2000 ∧
    (∀ t p st, (normalizeBoard p.board).isSome = true →
      (applyGameMsg t p st).pendingMove = none) := by
  subst h1
  refine ⟨?_, ?_, rfl, ?_⟩
  · simp [myTurn, effectiveStatus]
  · have hscan : lowestEmptyRowFrom emptyBoard 3 5 = some 5 := by decide
    have hwrite :
        writeCell emptyBoard 5 3 1 =
          [[0, 0, 0, 0, 0, 0, 0], [0, 0, 0, 0, 0, 0, 0], [0, 0, 0, 0, 0, 0, 0],
           [0, 0, 0, 0, 0, 0, 0], [0, 0, 0, 0, 0, 0, 0], [0, 0, 0, 1, 0, 0, 0]] := by
      decide
    unfold handleColumnClick
    rw [hscan]
    simp [effectiveStatus, hwrite]
  · intro t p st hsome
    unfold applyGameMsg
    obtain ⟨b, hb⟩ := Option.isSome_iff_exists.mp hsome
    rw [hb]

/-- Witness for `optimisticMoveScenario` with concrete players. -/
theorem optimisticMoveScenario_witness :
    myTurn "alice"
        ⟨emptyBoard, 1, Status.in_progress, none, some ⟨"alice", "a1", false⟩,
          some ⟨"bob", "b1", true⟩, none⟩ = true ∧
    handleColumnClick
        ⟨⟨emptyBoard, 1, Status.in_progress, none, some ⟨"alice", "a1", false⟩,
            some ⟨"bob", "b1", true⟩, none⟩, none, true, "alice", true, true⟩ 3 =
      ⟨⟨[[0, 0, 0, 0, 0, 0, 0], [0, 0, 0, 0, 0, 0, 0], [0, 0, 0, 0, 0, 0, 0],
          [0, 0, 0, 0, 0, 0, 0], [0, 0, 0, 0, 0, 0, 0], [0, 0, 0, 1, 0, 0, 0]],
        2, Status.in_progress, none, some ⟨"alice", "a1", false⟩,
        some ⟨"bob", "b1", true⟩, some ⟨5, 3, 1⟩⟩,
        some ⟨5, 3, 1⟩, some 3, some PENDING_MOVE_TIMEOUT_MS⟩ ∧
    PENDING_MOVE_TIMEOUT_MS = 2000 ∧
    (∀ t p st, (normalizeBoard p.board).isSome = true →
      (applyGameMsg t p st).pendingMove = none) :=
  optimisticMoveScenario "alice" ⟨"alice", "a1", false⟩ ⟨"bob", "b1", true⟩ none rfl

/-- C3: when the chosen column is full (all 6 rows hold a present,
non-zero cell), the click is rejected: the game state and the pending
move are untouched, no `move` frame is handed to the socket, and no
timer is scheduled. -/
theorem fullColumnClickRejected (env : ClickEnv) (col : Nat)
    (hfull : ∀ r, r < 6 →
      (cellAt env.state.board r col).isSome = true ∧
      cellAt env.state.board r col ≠ some 0) :
    handleColumnClick env col =
      ⟨env.state, env.pending, none, none⟩ := by
  have hscan : lowestEmptyRowFrom env.state.board col 5 = none :=
    lowestEmptyRowFrom_of_full env.state.board col 5
      (fun r hr => hfull r (by omega))
  unfold handleColumnClick
  by_cases hg : env.isMyTurn = true ∧ effectiveStatus env.state = Status.in_progress
  · rw [hscan]
    simp [hg]
  · simp [hg]

/-- Witness for `fullColumnClickRejected`: column 3 full of alternating
tokens. -/
theorem fullColumnClickRejected_witness :
    handleColumnClick
        ⟨⟨List.replicate 6 [0, 0, 0, 1, 0, 0, 0], 1, Status.in_progress, none,
            some ⟨"alice", "a1", false⟩, some ⟨"bob", "b1", true⟩, none⟩,
          none, true, "alice", true, true⟩ 3 =
      ⟨⟨List.replicate 6 [0, 0, 0, 1, 0, 0, 0], 1, Status.in_progress, none,
          some ⟨"alice", "a1", false⟩, some ⟨"bob", "b1", true⟩, none⟩,
        none, none, none⟩ :=
  fullColumnClickRejected
    ⟨⟨List.replicate 6 [0, 0, 0, 1, 0, 0, 0], 1, Status.in_progress, none,
        some ⟨"alice", "a1", false⟩, some ⟨"bob", "b1", true⟩, none⟩,
      none, true, "alice", true, true⟩ 3 (by decide)

/-- C10: a column click while the socket is not OPEN changes nothing:
the handler returns before the optimistic update, so the game state and
pending move are unchanged and no frame send is attempted. -/
theorem closedSocketClickNoEffect (env : ClickEnv) (col : Nat)
    (hws : env.wsOpen = false) :
    handleColumnClick env col =
      ⟨env.state, env.pending, none, none⟩ := by
  unfold handleColumnClick
  by_cases hg : env.isMyTurn = true ∧ effectiveStatus env.state = Status.in_progress
  · cases hscan : lowestEmptyRowFrom env.state.board col 5 with
    | none => simp [hg]
    | some row => simp [hg, hws]
  · simp [hg]

/-- Witness for `closedSocketClickNoEffect` on an empty board with the
turn granted. -/
theorem closedSocketClickNoEffect_witness :
    handleColumnClick
        ⟨⟨emptyBoard, 1, Status.in_progress, none, some ⟨"alice", "a1", false⟩,
            some ⟨"bob", "b1", true⟩, none⟩, none, true, "alice", false, true⟩ 3 =
      ⟨⟨emptyBoard, 1, Status.in_progress, none, some ⟨"alice", "a1", false⟩,
          some ⟨"bob", "b1", true⟩, none⟩, none, none, none⟩ :=
  closedSocketClickNoEffect
    ⟨⟨emptyBoard, 1, Status.in_progress, none, some ⟨"alice", "a1", false⟩,
        some ⟨"bob", "b1", true⟩, none⟩, none, true, "alice", false, true⟩ 3 rfl

/-- C5 counterexample: the expired friend-waiting timer switches the
persisted mode to the string "computer" and rejoins with
`gameMode:"computer"` — not the string "bot" the claim names. -/
theorem fallbackUsesComputerNotBot :
    onFriendWaitingExpiry "alice" none (some "friend") true true =
      ⟨some "computer", true, some 100, some ⟨"alice", "computer"⟩⟩ ∧
    (onFriendWaitingExpiry "alice" none (some "friend") true true).savedMode ≠
      some "bot" ∧
    (onFriendWaitingExpiry "alice" none (some "friend") true true).joinSent ≠
      some ⟨"alice", "bot"⟩ := by
  decide

/-- C5 (amended): whenever the 10-second (`FRIEND_WAITING_TIMEOUT_MS`)
friend-waiting timer expires with the session still waiting in friend
mode and the socket open, the persisted mode is switched to "computer"
(the code's name for the bot opponent), a `cancelWaiting` frame is
sent, and after the 100 ms settle delay a fresh join frame with
`gameMode:"computer"` is sent. -/
theorem fallbackSwitchScenario (u : String) (cs : Option StoredGameState)
    (m : Option String) (h : stillWaitingCheck cs m = true) :
    FRIEND_WAITING_TIMEOUT_MS = 10000 ∧
    onFriendWaitingExpiry u cs m true true =
      ⟨some "computer", true, some 100, some ⟨u, "computer"⟩⟩ := by
  refine ⟨rfl, ?_⟩
  unfold onFriendWaitingExpiry
  simp [h]

/-- Witness for `fallbackSwitchScenario`: no snapshot stored yet, mode
"friend". -/
theorem fallbackSwitchScenario_witness :
    FRIEND_WAITING_TIMEOUT_MS = 10000 ∧
    onFriendWaitingExpiry "alice" none (some "friend") true true =
      ⟨some "computer", true, some 100, some ⟨"alice", "computer"⟩⟩ :=
  fallbackSwitchScenario "alice" none (some "friend") (by decide)

/-- C9: with both player slots populated and status still waiting, the
effective status is in_progress, and the local player owns the turn
exactly when their username matches the player slot selected by
`currentTurn`. -/
theorem waitingOverrideTurnOwnership (st : GameState) (u : String)
    (p1 p2 : Player) (h1 : st.player1 = some p1) (h2 : st.player2 = some p2)
    (hs : st.status = Status.waiting) :
    effectiveStatus st = Status.in_progress ∧
    (myTurn u st = true ↔
      ((st.currentTurn = 1 ∧ p1.username = u) ∨
       (st.currentTurn = 2 ∧ p2.username = u))) := by
  have heff : effectiveStatus st = Status.in_progress := by
    simp [effectiveStatus, h1, h2, hs]
  refine ⟨heff, ?_⟩
  simp [myTurn, heff, h1, h2]

/-- Witness for `waitingOverrideTurnOwnership`: player 1's turn in a
waiting-but-populated session. -/
theorem waitingOverrideTurnOwnership_witness :
    effectiveStatus
        ⟨emptyBoard, 1, Status.waiting, none, some ⟨"alice", "a1", false⟩,
          some ⟨"bob", "b1", true⟩, none⟩ = Status.in_progress ∧
    (myTurn "alice"
          ⟨emptyBoard, 1, Status.waiting, none, some ⟨"alice", "a1", false⟩,
            some ⟨"bob", "b1", true⟩, none⟩ = true ↔
      ((1 = 1 ∧ "alice" = "alice") ∨ (1 = 2 ∧ "bob" = "alice"))) :=
  waitingOverrideTurnOwnership
    ⟨emptyBoard, 1, Status.waiting, none, some ⟨"alice", "a1", false⟩,
      some ⟨"bob", "b1", true⟩, none⟩ "alice" ⟨"alice", "a1", false⟩
    ⟨"bob", "b1", true⟩ rfl rfl rfl

end Connect4
